import Mathlib

/-!
Verification of the intake repository excerpt: the persist contract of
catalog sources (`intake/catalog/tests/test_persist.py` and the spec's
persist-idempotence contract) and the GUI panel components of
`intake/gui/source_view.py` (`pretty_describe`, `Description`,
`DefinedPlots`).

Python values that flow through the GUI code are either dicts or
arbitrary non-dict objects; a non-dict object only ever appears through
its `str()` rendering here, so it is embedded as that rendering.
-/

namespace Intake

/-- Embedding of the Python values handled by `pretty_describe` and
`Description.contents`: a dict is an ordered association list of
string keys to values; every non-dict value is represented by its
`str()` rendering. -/
inductive PyVal : Type where
  | str : String → PyVal
  | dict : List (String × PyVal) → PyVal

/-- A run of `n` space characters, as produced by `" " * n` in Python. -/
def spaces (n : Nat) : String :=
  String.mk (List.replicate n ' ')

mutual

/-- Embedding of `pretty_describe(object, nestedness=0, indent=2)` from
`intake/gui/source_view.py`: non-dicts render as `str(object)`; a dict
joins `k: pretty_describe(v, nestedness + 1)` entries with
`'\n' + ' ' * nestedness * indent`.  The recursive call leaves `indent`
at its default of 2, exactly as the source does. -/
def prettyDescribe : PyVal → Nat → Nat → String
  | PyVal.str s, _, _ => s
  | PyVal.dict items, nestedness, indent =>
      String.intercalate ("\n" ++ spaces (nestedness * indent))
        (prettyEntries items nestedness)

/-- The list of `f'{k}: {pretty_describe(v, nestedness + 1)}'` strings
built by the generator expression inside `pretty_describe`. -/
def prettyEntries : List (String × PyVal) → Nat → List String
  | [], _ => []
  | (k, v) :: rest, nestedness =>
      (k ++ ": " ++ prettyDescribe v (nestedness + 1) 2)
        :: prettyEntries rest nestedness

end

/-- First value bound to a key in an association list, mirroring Python
dict lookup (`d[k]` / `k in d`); keys of a Python dict are unique. -/
def assoc {α : Type} (k : String) : List (String × α) → Option α
  | [] => none
  | (k', v) :: rest => if k' = k then some v else assoc k rest

/-- Python `k in d` for a dict `d`. -/
def dictContains (k : String) (d : List (String × PyVal)) : Bool :=
  (assoc k d).isSome

/-- Python `d.pop(k)` on a dict, keeping the remaining entries in
order.  Keys of a Python dict are unique, so removing every binding of
`k` agrees with removing the single one. -/
def dictPop (k : String) : List (String × PyVal) → List (String × PyVal)
  | [] => []
  | (k', v) :: rest =>
      if k' = k then dictPop k rest else (k', v) :: dictPop k rest

/-- Python `d[k] = v` for a key already present in `d` (in-place update
of the value bound to `k`, order preserved). -/
def setKey (k : String) (v : PyVal) : List (String × PyVal) → List (String × PyVal)
  | [] => []
  | (k', v') :: rest =>
      if k' = k then (k, v) :: setKey k v rest else (k', v') :: setKey k v rest

/-- Python `pat in s` for strings: substring containment. -/
def strContains (s pat : String) : Bool :=
  (s.splitOn pat).length > 1

/-- Modelled from the spec: the catalog Source object as seen by the GUI
panels.  The Source class itself is not part of the excerpt; the spec
describes it as a handle carrying a name, a description
(`_display_content()` returns a `(contents, warning)` pair whose
`contents` is a dict) and a list of predefined plots (`plots`).  A
non-dict value in `contents` is embedded as its `str()` rendering. -/
structure SourceInfo where
  _name : String
  display : List (String × PyVal)
  warning : String
  plots : List String

/-- State of a `Description` panel: the selected source (`_source`) and,
once `setup` has run, the pair of displayed pane objects
(`main_pane.object`, `label_pane.object`); `none` means the panes have
not been created yet. -/
structure DescriptionState where
  _source : Option SourceInfo
  panes : Option (String × Option String)

/-- State of a `DefinedPlots` panel: the selected source (`_source`)
and, once `setup` has run, the options of the select widget
(`select.options`); `none` means the select widget has not been created
yet. -/
structure DefinedPlotsState where
  _source : Option SourceInfo
  select : Option (List String)

/-- First in-place `pop` of `Description.contents`:
`if 'metadata' in contents and 'plots' in contents['metadata']:
contents['metadata'].pop('plots')`.  Returns `none` on the path where
the Python code would raise (`.pop` on a non-dict that contains the
substring `plots`). -/
def stripMetaPlots (contents : List (String × PyVal)) : Option (List (String × PyVal)) :=
  match assoc "metadata" contents with
  | some (PyVal.dict m) =>
      if dictContains "plots" m then
        some (setKey "metadata" (PyVal.dict (dictPop "plots" m)) contents)
      else some contents
  | some (PyVal.str s) =>
      if strContains s "plots" then none else some contents
  | none => some contents

/-- Second in-place `pop` of `Description.contents`:
`if 'args' in contents and 'plots' in contents['args'].get('metadata', {}):
contents['args']['metadata'].pop('plots')`.  Returns `none` on the
paths where the Python code would raise (`.get` or `.pop` on a
non-dict). -/
def stripArgsPlots (c1 : List (String × PyVal)) : Option (List (String × PyVal)) :=
  match assoc "args" c1 with
  | some (PyVal.dict a) =>
      (match assoc "metadata" a with
       | some (PyVal.dict am) =>
           if dictContains "plots" am then
             some (setKey "args"
               (PyVal.dict (setKey "metadata" (PyVal.dict (dictPop "plots" am)) a)) c1)
           else some c1
       | some (PyVal.str s) =>
           if strContains s "plots" then none else some c1
       | none => some c1)
  | some (PyVal.str _) => none
  | none => some c1

/-- The two in-place `pop` statements of `Description.contents`, in
source order. -/
def stripPlots (contents : List (String × PyVal)) : Option (List (String × PyVal)) :=
  match stripMetaPlots contents with
  | none => none
  | some c1 => stripArgsPlots c1

/-- Whether the rendered dict still holds a `'plots'` key under its
`'metadata'` dict, mirroring the condition
`'metadata' in contents and 'plots' in contents['metadata']`. -/
def metadataHasPlots (c : List (String × PyVal)) : Bool :=
  match assoc "metadata" c with
  | some (PyVal.dict m) => dictContains "plots" m
  | _ => false

/-- Whether the rendered dict still holds a `'plots'` key under
`contents['args']['metadata']`, mirroring the condition
`'args' in contents and 'plots' in contents['args'].get('metadata', {})`. -/
def argsMetadataHasPlots (c : List (String × PyVal)) : Bool :=
  match assoc "args" c with
  | some (PyVal.dict a) =>
      (match assoc "metadata" a with
       | some (PyVal.dict am) => dictContains "plots" am
       | _ => false)
  | _ => false

/-- Python `'\n' + warning if warning else ''` appended by
`Description.contents`. -/
def warningSuffix (w : String) : String :=
  if w = "" then "" else "\n" ++ w

/-- Embedding of the `Description.contents` property: with no selected
source it returns 100 spaces (the source's size HACK); otherwise it
strips the plot entries from the display dict and renders it with
`pretty_describe`, appending the warning when non-empty.  `none` marks
the paths where the Python code would raise. -/
def descContents (d : DescriptionState) : Option String :=
  match d._source with
  | none => some (spaces 100)
  | some src =>
    match stripPlots src.display with
    | none => none
    | some c => some (prettyDescribe (PyVal.dict c) 0 2 ++ warningSuffix src.warning)

/-- Embedding of the `Description.label` property:
`f'####Entry: {self.source._name}' if self.source else None`. -/
def descLabel (d : DescriptionState) : Option String :=
  match d._source with
  | none => none
  | some src => some ("####Entry: " ++ src._name)

/-- Embedding of the `DefinedPlots.options` property:
`self.source.plots if self.source is not None else []`. -/
def dpOptions (d : DefinedPlotsState) : List String :=
  match d._source with
  | none => []
  | some src => src.plots

/-- Value assigned to the `source` property setters: either a list of
sources or a single (possibly absent) source object. -/
inductive SourceParam : Type where
  | one : Option SourceInfo → SourceParam
  | list : List SourceInfo → SourceParam

/-- The list normalization shared by both `source` setters:
`source = source[0] if len(source) > 0 else None` when the assigned
value is a list, the value itself otherwise. -/
def normalizeSource : SourceParam → Option SourceInfo
  | SourceParam.one s => s
  | SourceParam.list [] => none
  | SourceParam.list (s :: _) => some s

/-- Embedding of the `Description.source` setter: normalize the value,
store it in `_source`, and when the panes exist redraw them from the
new `contents` and `label`.  The second component is `false` when the
redraw raises; as in Python, `_source` is already updated then and the
panes keep their old objects. -/
def descSetSource (d : DescriptionState) (p : SourceParam) : DescriptionState × Bool :=
  let d' : DescriptionState := { d with _source := normalizeSource p }
  match d'.panes with
  | none => (d', true)
  | some _ =>
    match descContents d' with
    | none => (d', false)
    | some c => ({ d' with panes := some (c, descLabel d') }, true)

/-- Embedding of the `DefinedPlots.source` setter: normalize the value,
store it in `_source`, and when the select widget exists set its
options from the new source. -/
def dpSetSource (d : DefinedPlotsState) (p : SourceParam) : DefinedPlotsState :=
  let d' : DefinedPlotsState := { d with _source := normalizeSource p }
  match d'.select with
  | none => d'
  | some _ => { d' with select := some (dpOptions d') }

/-- Modelled from the spec: a catalog Source as far as persistence is
concerned.  The `Source` class and its `persist` method are not in the
excerpt (only `test_persist.py` exercises them); the spec describes a
Source as an identity (`name`), a declared `container` type, the class
of the driver that produced it (`driver`), and the two flags
`has_been_persisted` (this instance triggered a persist) and
`is_persisted` (this instance IS the cached copy). -/
structure Source where
  name : String
  container : String
  driver : String
  has_been_persisted : Bool
  is_persisted : Bool
deriving DecidableEq

/-- Modelled from the spec: the global persist store.  `cache` maps a
source's identity/cache key to the cached artifact already produced for
it; `exported` counts invocations of the underlying export drivers, so
that "without re-invoking the underlying export" is statable. -/
structure PersistState where
  cache : List (String × Source)
  exported : Nat
deriving DecidableEq

/-- Modelled from the spec: the identity/cache key of a Source, under
which its cached artifact is stored.  The flags play no part in it. -/
def cacheKey (s : Source) : String :=
  s.name

/-- Modelled from the spec: `s.persist()`.  The method is absent from
the excerpt; per the spec it delegates to the registry of exporter
plugins keyed by the declared container type.  If the store already
holds an artifact for `s`'s cache key, that artifact is returned and
nothing is exported; otherwise the export driver registered for
`s.container` runs once and a new Source — an instance of that driver
class, flagged `is_persisted` — is produced and cached.  Either way the
originating instance comes back with `has_been_persisted` set.  The
result is `(s2, updated original, updated store)`; `none` models the
error raised when no driver is registered for the container type. -/
def persist (s : Source) (registry : List (String × String)) (st : PersistState) :
    Option (Source × Source × PersistState) :=
  match assoc (cacheKey s) st.cache with
  | some cached =>
      some (cached, { s with has_been_persisted := true }, st)
  | none =>
    match assoc s.container registry with
    | none => none
    | some drv =>
      some (⟨s.name, s.container, drv, false, true⟩,
        { s with has_been_persisted := true },
        ⟨(cacheKey s, ⟨s.name, s.container, drv, false, true⟩) :: st.cache,
         st.exported + 1⟩)

/-! Concrete fixtures, mirroring the `zarr1` catalog entry of
`test_idempotent` and the small sources the GUI tests drive. -/

/-- The unpersisted `cat.zarr1()` source of `test_idempotent`. -/
def zarrEntry : Source :=
  ⟨"zarr1", "xarray", "catalog-entry", false, false⟩

/-- A registry holding one exporter driver for the `xarray` container. -/
def zarrRegistry : List (String × String) :=
  [("xarray", "ZarrPersister")]

/-- The persist store before any persist call. -/
def emptyStore : PersistState :=
  ⟨[], 0⟩

/-- The cached artifact produced by persisting `zarrEntry`. -/
def zarrPersisted : Source :=
  ⟨"zarr1", "xarray", "ZarrPersister", false, true⟩

/-- The originating `zarrEntry` instance after its persist call. -/
def zarrAfter : Source :=
  ⟨"zarr1", "xarray", "catalog-entry", true, false⟩

/-- The persist store after persisting `zarrEntry` once. -/
def zarrStore : PersistState :=
  ⟨[("zarr1", zarrPersisted)], 1⟩

/-- A source with one plain display entry, one predefined plot and no
warning. -/
def sampleSource : SourceInfo :=
  ⟨"entry1", [("container", PyVal.str "dataframe")], "", ["line"]⟩

/-- A `Description` panel that has been set up (panes exist) with no
source selected yet. -/
def sampleDesc : DescriptionState :=
  ⟨none, some (spaces 100, none)⟩

/-- A `DefinedPlots` panel that has been set up (select widget exists)
with no source selected yet. -/
def samplePlots : DefinedPlotsState :=
  ⟨none, some []⟩

/-- A source whose display dict carries `plots` entries both under
`metadata` and under `args.metadata`. -/
def plotSource : SourceInfo :=
  ⟨"entry2",
   [("metadata", PyVal.dict [("plots", PyVal.str "fig"), ("cache", PyVal.str "c")]),
    ("args", PyVal.dict [("metadata", PyVal.dict [("plots", PyVal.str "fig2")])])],
   "", []⟩

/-- A `Description` panel showing `plotSource`, before setup. -/
def plotDesc : DescriptionState :=
  ⟨some plotSource, none⟩

/-- `plotSource.display` after both `pop` statements have run. -/
def plotStripped : List (String × PyVal) :=
  [("metadata", PyVal.dict [("cache", PyVal.str "c")]),
   ("args", PyVal.dict [("metadata", PyVal.dict [])])]

/-! Association-list lemmas about `dictPop` and `setKey`. -/

theorem assoc_dictPop_self (k : String) (d : List (String × PyVal)) :
    assoc k (dictPop k d) = none := by
  induction d with
  | nil => rfl
  | cons kv rest ih =>
      rcases kv with ⟨k', v⟩
      by_cases h : k' = k
      · simp [dictPop, h, ih]
      · simp [dictPop, assoc, h, ih]

theorem assoc_setKey_self (k : String) (v : PyVal) (d : List (String × PyVal))
    (w : PyVal) (h : assoc k d = some w) :
    assoc k (setKey k v d) = some v := by
  induction d with
  | nil => simp [assoc] at h
  | cons kv rest ih =>
      rcases kv with ⟨k', v'⟩
      by_cases hk : k' = k
      · simp [setKey, assoc, hk]
      · simp only [assoc, if_neg hk] at h
        simp [setKey, assoc, hk]
        exact ih h

theorem assoc_setKey_ne (k k' : String) (v : PyVal) (d : List (String × PyVal))
    (h : k ≠ k') :
    assoc k' (setKey k v d) = assoc k' d := by
  induction d with
  | nil => rfl
  | cons kv rest ih =>
      rcases kv with ⟨k0, v0⟩
      by_cases hk : k0 = k
      · subst hk
        simp [setKey, assoc, h, ih]
      · simp [setKey, assoc, hk, ih]

/-! Behaviour of `persist` on its two paths. -/

theorem persist_cached_eq (s : Source) (reg : List (String × String))
    (st : PersistState) (c : Source)
    (h : assoc (cacheKey s) st.cache = some c) :
    persist s reg st = some (c, { s with has_been_persisted := true }, st) := by
  unfold persist
  rw [h]

theorem persist_fresh_eq (s : Source) (reg : List (String × String))
    (st : PersistState) (drv : String)
    (h : assoc (cacheKey s) st.cache = none)
    (hd : assoc s.container reg = some drv) :
    persist s reg st = some (⟨s.name, s.container, drv, false, true⟩,
      { s with has_been_persisted := true },
      ⟨(cacheKey s, ⟨s.name, s.container, drv, false, true⟩) :: st.cache,
       st.exported + 1⟩) := by
  unfold persist
  rw [h, hd]

/-- After any successful `persist`, the store maps the originating
instance's cache key to the returned artifact. -/
theorem persist_result_mem (s : Source) (reg : List (String × String))
    (st : PersistState) (s2 s' : Source) (st' : PersistState)
    (h : persist s reg st = some (s2, s', st')) :
    assoc (cacheKey s') st'.cache = some s2 := by
  unfold persist at h
  split at h
  next c hc =>
    simp only [Option.some.injEq, Prod.mk.injEq] at h
    obtain ⟨rfl, rfl, rfl⟩ := h
    exact hc
  next hc =>
    split at h
    next => exact absurd h (by simp)
    next drv hd =>
      simp only [Option.some.injEq, Prod.mk.injEq] at h
      obtain ⟨rfl, rfl, rfl⟩ := h
      simp [assoc, cacheKey]

/-- Claim C1: for a Source that has not yet been persisted, calling
`persist()` a second time returns a Source equal to the result of the
first call. -/
theorem persist_idempotent (s : Source) (registry : List (String × String))
    (st : PersistState) (s2 s' : Source) (st' : PersistState)
    (s3 s'' : Source) (st'' : PersistState)
    (hunp : s.has_been_persisted = false)
    (h1 : persist s registry st = some (s2, s', st'))
    (h2 : persist s' registry st' = some (s3, s'', st'')) :
    s3 = s2 := by
  have hmem := persist_result_mem s registry st s2 s' st' h1
  rw [persist_cached_eq s' registry st' s2 hmem] at h2
  simp only [Option.some.injEq, Prod.mk.injEq] at h2
  exact h2.1.symm

theorem persist_idempotent_witness :
    zarrEntry.has_been_persisted = false ∧
    persist zarrEntry zarrRegistry emptyStore = some (zarrPersisted, zarrAfter, zarrStore) ∧
    persist zarrAfter zarrRegistry zarrStore = some (zarrPersisted, zarrAfter, zarrStore) ∧
    zarrPersisted = zarrPersisted :=
  ⟨rfl, by decide, by decide,
   persist_idempotent zarrEntry zarrRegistry emptyStore zarrPersisted zarrAfter zarrStore
     zarrPersisted zarrAfter zarrStore rfl (by decide) (by decide)⟩

/-- Claim C2: persisting a not-yet-persisted Source sets
`has_been_persisted` on the originating instance, leaves it
`is_persisted == False`, and returns an artifact with
`is_persisted == True`. -/
theorem persist_flags (s : Source) (registry : List (String × String))
    (st : PersistState) (s2 s' : Source) (st' : PersistState)
    (hflag : s.has_been_persisted = false)
    (hpers : s.is_persisted = false)
    (hnew : assoc (cacheKey s) st.cache = none)
    (h : persist s registry st = some (s2, s', st')) :
    s'.has_been_persisted = true ∧ s'.is_persisted = false ∧ s2.is_persisted = true := by
  unfold persist at h
  split at h
  next c hc =>
    rw [hnew] at hc
    exact absurd hc (by simp)
  next hc =>
    split at h
    next => exact absurd h (by simp)
    next drv hd =>
      simp only [Option.some.injEq, Prod.mk.injEq] at h
      obtain ⟨rfl, rfl, rfl⟩ := h
      exact ⟨rfl, hpers, rfl⟩

theorem persist_flags_witness :
    zarrEntry.has_been_persisted = false ∧ zarrEntry.is_persisted = false ∧
    (zarrAfter.has_been_persisted = true ∧ zarrAfter.is_persisted = false ∧
     zarrPersisted.is_persisted = true) :=
  ⟨rfl, rfl,
   persist_flags zarrEntry zarrRegistry emptyStore zarrPersisted zarrAfter zarrStore
     rfl rfl rfl (by decide)⟩

/-- Claim C3: a fresh persist returns an instance of the driver class
registered for the Source's container type. -/
theorem persist_driver_class (s : Source) (registry : List (String × String))
    (st : PersistState) (drv : String) (s2 s' : Source) (st' : PersistState)
    (hnew : assoc (cacheKey s) st.cache = none)
    (hdrv : assoc s.container registry = some drv)
    (h : persist s registry st = some (s2, s', st')) :
    s2.driver = drv := by
  rw [persist_fresh_eq s registry st drv hnew hdrv] at h
  simp only [Option.some.injEq, Prod.mk.injEq] at h
  obtain ⟨rfl, rfl, rfl⟩ := h
  rfl

theorem persist_driver_class_witness :
    assoc zarrEntry.container zarrRegistry = some "ZarrPersister" ∧
    zarrPersisted.driver = "ZarrPersister" :=
  ⟨rfl,
   persist_driver_class zarrEntry zarrRegistry emptyStore "ZarrPersister"
     zarrPersisted zarrAfter zarrStore rfl rfl (by decide)⟩

/-- Claim C4: `persist()` returns a new Source and leaves every field of
the originating instance unchanged except the `has_been_persisted`
flag. -/
theorem persist_frame (s : Source) (registry : List (String × String))
    (st : PersistState) (s2 s' : Source) (st' : PersistState)
    (h : persist s registry st = some (s2, s', st')) :
    s'.name = s.name ∧ s'.container = s.container ∧ s'.driver = s.driver ∧
    s'.is_persisted = s.is_persisted ∧ s'.has_been_persisted = true := by
  unfold persist at h
  split at h
  next c hc =>
    simp only [Option.some.injEq, Prod.mk.injEq] at h
    obtain ⟨rfl, rfl, rfl⟩ := h
    exact ⟨rfl, rfl, rfl, rfl, rfl⟩
  next hc =>
    split at h
    next => exact absurd h (by simp)
    next drv hd =>
      simp only [Option.some.injEq, Prod.mk.injEq] at h
      obtain ⟨rfl, rfl, rfl⟩ := h
      exact ⟨rfl, rfl, rfl, rfl, rfl⟩

theorem persist_frame_witness :
    persist zarrEntry zarrRegistry emptyStore = some (zarrPersisted, zarrAfter, zarrStore) ∧
    (zarrAfter.name = zarrEntry.name ∧ zarrAfter.container = zarrEntry.container ∧
     zarrAfter.driver = zarrEntry.driver ∧ zarrAfter.is_persisted = zarrEntry.is_persisted ∧
     zarrAfter.has_been_persisted = true) :=
  ⟨by decide,
   persist_frame zarrEntry zarrRegistry emptyStore zarrPersisted zarrAfter zarrStore (by decide)⟩

/-- Claim C5: persisting an already-persisted Source returns the cached
artifact and leaves the store untouched — no export driver runs and no
second cached artifact is created. -/
theorem persist_cached_noop (s : Source) (registry : List (String × String))
    (st : PersistState) (c : Source)
    (hc : assoc (cacheKey s) st.cache = some c) :
    persist s registry st = some (c, { s with has_been_persisted := true }, st) := by
  unfold persist
  rw [hc]

theorem persist_cached_noop_witness :
    assoc (cacheKey zarrAfter) zarrStore.cache = some zarrPersisted ∧
    persist zarrAfter zarrRegistry zarrStore =
      some (zarrPersisted, { zarrAfter with has_been_persisted := true }, zarrStore) :=
  ⟨by decide,
   persist_cached_noop zarrAfter zarrRegistry zarrStore zarrPersisted (by decide)⟩

/-! The GUI panels. -/

theorem prettyEntries_eq_map (items : List (String × PyVal)) (n : Nat) :
    prettyEntries items n =
      items.map fun kv => kv.1 ++ ": " ++ prettyDescribe kv.2 (n + 1) 2 := by
  induction items with
  | nil => rfl
  | cons kv rest ih =>
      rcases kv with ⟨k, v⟩
      simp [prettyEntries, ih]

/-- Claim C9: `pretty_describe` returns `str(object)` on every non-dict
input; on a dict it emits one `k: v` entry per key in insertion order,
recursing into the values with `nestedness + 1` (and the default indent
of 2), and joins the entries with a newline followed by
`nestedness * indent` spaces.  As a total Lean function it terminates
on every finitely nested dict. -/
theorem pretty_describe_spec :
    (∀ s n i, prettyDescribe (PyVal.str s) n i = s) ∧
    (∀ items n i, prettyDescribe (PyVal.dict items) n i =
      String.intercalate ("\n" ++ spaces (n * i))
        (items.map fun kv => kv.1 ++ ": " ++ prettyDescribe kv.2 (n + 1) 2)) := by
  constructor
  · intro s n i
    rfl
  · intro items n i
    rw [prettyDescribe, prettyEntries_eq_map]

/-- Claim C6 counterexample: with no selected source,
`Description.contents` is a 100-character run of spaces, not the empty
string. -/
theorem desc_contents_no_source_not_empty :
    descContents ⟨none, none⟩ = some (spaces 100) ∧ spaces 100 ≠ "" := by
  exact ⟨rfl, by decide⟩

/-- Claim C6 (amended): with no selected source the GUI components
no-op without raising: `Description.contents` returns a 100-space
placeholder string, `Description.label` returns no label, and
`DefinedPlots.options` returns the empty list. -/
theorem no_source_noop (d : DescriptionState) (dp : DefinedPlotsState)
    (hd : d._source = none) (hdp : dp._source = none) :
    descContents d = some (spaces 100) ∧ descLabel d = none ∧ dpOptions dp = [] := by
  refine ⟨?_, ?_, ?_⟩
  · simp [descContents, hd]
  · simp [descLabel, hd]
  · simp [dpOptions, hdp]

theorem no_source_noop_witness :
    (⟨none, none⟩ : DescriptionState)._source = none ∧
    (descContents ⟨none, none⟩ = some (spaces 100) ∧
     descLabel ⟨none, none⟩ = none ∧ dpOptions ⟨none, none⟩ = []) :=
  ⟨rfl, no_source_noop ⟨none, none⟩ ⟨none, none⟩ rfl rfl⟩

/-- Claim C7: assigning a source to an already-set-up panel redraws its
widgets — `Description` rewrites its text pane to the new source's
contents and its label pane to the new source's label, and
`DefinedPlots` rewrites its select widget's options to the new source's
plots. -/
theorem source_setter_redraws (d : DescriptionState) (dp : DefinedPlotsState)
    (pn : String × Option String) (opts : List String) (p : SourceParam)
    (s : SourceInfo) (c : String)
    (hd : d.panes = some pn) (hdp : dp.select = some opts)
    (hp : normalizeSource p = some s)
    (hc : descContents { d with _source := some s } = some c) :
    (descSetSource d p).1.panes = some (c, some ("####Entry: " ++ s._name)) ∧
    (descSetSource d p).2 = true ∧
    (dpSetSource dp p).select = some s.plots := by
  rw [hd] at hc
  refine ⟨?_, ?_, ?_⟩
  · simp [descSetSource, descLabel, hp, hd, hc]
  · simp [descSetSource, hp, hd, hc]
  · simp [dpSetSource, dpOptions, hp, hdp]

theorem source_setter_redraws_witness :
    descContents { sampleDesc with _source := some sampleSource } =
      some "container: dataframe" ∧
    ((descSetSource sampleDesc (SourceParam.list [sampleSource])).1.panes =
       some ("container: dataframe", some "####Entry: entry1") ∧
     (descSetSource sampleDesc (SourceParam.list [sampleSource])).2 = true ∧
     (dpSetSource samplePlots (SourceParam.list [sampleSource])).select = some ["line"]) :=
  ⟨rfl,
   source_setter_redraws sampleDesc samplePlots (spaces 100, none) []
     (SourceParam.list [sampleSource]) sampleSource "container: dataframe"
     rfl rfl rfl rfl⟩

theorem descSetSource_source (d : DescriptionState) (p : SourceParam) :
    (descSetSource d p).1._source = normalizeSource p := by
  simp only [descSetSource]
  split
  · rfl
  · split
    · rfl
    · rfl

theorem dpSetSource_source (dp : DefinedPlotsState) (p : SourceParam) :
    (dpSetSource dp p)._source = normalizeSource p := by
  simp only [dpSetSource]
  split
  · rfl
  · rfl

/-- Claim C8: both `source` setters store the first element of an
assigned list, `None` for an empty list, and a non-list value
unchanged. -/
theorem source_setter_normalizes (d : DescriptionState) (dp : DefinedPlotsState)
    (x : SourceInfo) (xs : List SourceInfo) (v : Option SourceInfo) :
    (descSetSource d (SourceParam.list (x :: xs))).1._source = some x ∧
    (descSetSource d (SourceParam.list [])).1._source = none ∧
    (descSetSource d (SourceParam.one v)).1._source = v ∧
    (dpSetSource dp (SourceParam.list (x :: xs)))._source = some x ∧
    (dpSetSource dp (SourceParam.list []))._source = none ∧
    (dpSetSource dp (SourceParam.one v))._source = v := by
  simp [descSetSource_source, dpSetSource_source, normalizeSource]

theorem stripMetaPlots_no_plots (contents c1 : List (String × PyVal))
    (h : stripMetaPlots contents = some c1) :
    metadataHasPlots c1 = false := by
  unfold stripMetaPlots at h
  split at h
  next m hm =>
    split at h
    next hp =>
      obtain rfl := Option.some.inj h
      have h2 := assoc_setKey_self "metadata" (PyVal.dict (dictPop "plots" m))
        contents (PyVal.dict m) hm
      simp [metadataHasPlots, h2, dictContains, assoc_dictPop_self]
    next hp =>
      obtain rfl := Option.some.inj h
      simp only [Bool.not_eq_true] at hp
      simp [metadataHasPlots, hm, hp]
  next s hs' =>
    split at h
    next => exact absurd h (by simp)
    next =>
      obtain rfl := Option.some.inj h
      simp [metadataHasPlots, hs']
  next hn =>
    obtain rfl := Option.some.inj h
    simp [metadataHasPlots, hn]

theorem stripArgsPlots_assoc_metadata (c1 c : List (String × PyVal))
    (h : stripArgsPlots c1 = some c) :
    assoc "metadata" c = assoc "metadata" c1 := by
  unfold stripArgsPlots at h
  split at h
  next a ha =>
    split at h
    next am ham =>
      split at h
      next hp =>
        obtain rfl := Option.some.inj h
        exact assoc_setKey_ne "args" "metadata" _ c1 (by decide)
      next hp =>
        obtain rfl := Option.some.inj h
        rfl
    next s hs' =>
      split at h
      next => exact absurd h (by simp)
      next =>
        obtain rfl := Option.some.inj h
        rfl
    next ham =>
      obtain rfl := Option.some.inj h
      rfl
  next hs' => exact absurd h (by simp)
  next hn =>
    obtain rfl := Option.some.inj h
    rfl

theorem stripArgsPlots_no_plots (c1 c : List (String × PyVal))
    (h : stripArgsPlots c1 = some c) :
    argsMetadataHasPlots c = false := by
  unfold stripArgsPlots at h
  split at h
  next a ha =>
    split at h
    next am ham =>
      split at h
      next hp =>
        obtain rfl := Option.some.inj h
        have h2 := assoc_setKey_self "args"
          (PyVal.dict (setKey "metadata" (PyVal.dict (dictPop "plots" am)) a))
          c1 (PyVal.dict a) ha
        have h3 := assoc_setKey_self "metadata" (PyVal.dict (dictPop "plots" am))
          a (PyVal.dict am) ham
        simp [argsMetadataHasPlots, h2, h3, dictContains, assoc_dictPop_self]
      next hp =>
        obtain rfl := Option.some.inj h
        simp only [Bool.not_eq_true] at hp
        simp [argsMetadataHasPlots, ha, ham, hp]
    next s hs' =>
      split at h
      next => exact absurd h (by simp)
      next =>
        obtain rfl := Option.some.inj h
        simp [argsMetadataHasPlots, ha, hs']
    next ham =>
      obtain rfl := Option.some.inj h
      simp [argsMetadataHasPlots, ha, ham]
  next hs' => exact absurd h (by simp)
  next hn =>
    obtain rfl := Option.some.inj h
    simp [argsMetadataHasPlots, hn]

/-- Claim C10: for a selected source, `Description.contents` drops the
`plots` key from `contents['metadata']` and from
`contents['args']['metadata']` when present, so the rendered
description is built from a dict holding no such keys. -/
theorem desc_contents_strips_plots (d : DescriptionState) (src : SourceInfo)
    (c : List (String × PyVal))
    (hs : d._source = some src)
    (h : stripPlots src.display = some c) :
    descContents d =
      some (prettyDescribe (PyVal.dict c) 0 2 ++ warningSuffix src.warning) ∧
    metadataHasPlots c = false ∧ argsMetadataHasPlots c = false := by
  refine ⟨by simp [descContents, hs, h], ?_, ?_⟩
  · unfold stripPlots at h
    split at h
    next => exact absurd h (by simp)
    next c1 h1 =>
      have hm := stripMetaPlots_no_plots _ c1 h1
      have he := stripArgsPlots_assoc_metadata c1 c h
      unfold metadataHasPlots at hm ⊢
      rw [he]
      exact hm
  · unfold stripPlots at h
    split at h
    next => exact absurd h (by simp)
    next c1 h1 => exact stripArgsPlots_no_plots c1 c h

theorem desc_contents_strips_plots_witness :
    stripPlots plotSource.display = some plotStripped ∧
    (descContents plotDesc =
       some (prettyDescribe (PyVal.dict plotStripped) 0 2 ++ warningSuffix plotSource.warning) ∧
     metadataHasPlots plotStripped = false ∧ argsMetadataHasPlots plotStripped = false) :=
  ⟨rfl, desc_contents_strips_plots plotDesc plotSource plotStripped rfl rfl⟩

end Intake
